import Mathlib

/-!
Verification of the streamchain audit pipeline backend (backend/main.py):
shallow embedding of the data model, the ingestion fan-out endpoint
(create_event), the broadcast registry (ConnectionManager), the query
federation endpoints (get_audit_records, search_audit_records, the
GraphQL Query.search_records) and the health surface (health_check),
with theorems settling the stated contracts.

Machine conventions: timestamps and record ids are naturals; adapter
calls that may raise are modelled with Except, the error carrying the
exception detail; the process-wide client handles that may be None after
a failed initialization are Option-valued.  The metadata mapping is
carried in its serialized form, since the write path only ever stores
json.dumps(event.metadata).
-/

/-- Caller-supplied audit event (Pydantic EventModel). -/
structure EventModel where
  event_type : String
  user_id : String
  action : String
  metadata : String
deriving Repr, DecidableEq

/-- Persisted audit record (SQLAlchemy AuditRecord row).  Columns the
write path does not pass take their declared defaults: timestamp is
assigned at persistence time, transaction_hash, block_number and
gas_used default to NULL, and verified defaults to False. -/
structure AuditRecord where
  id : Nat
  event_type : String
  user_id : String
  action : String
  timestamp : Nat
  transaction_hash : Option String
  block_number : Option Nat
  ipfs_hash : Option String
  verified : Bool
  gas_used : Option Nat
  metadata : String
deriving Repr, DecidableEq

/-- A live WebSocket subscriber handle: cid is the identity of the
underlying connection and send_ok tells whether send_text on it
currently succeeds. -/
structure Conn where
  cid : Nat
  send_ok : Bool
deriving Repr, DecidableEq

/-- The JSON payload broadcast to WebSocket subscribers by create_event
(the parsed content of the json.dumps argument). -/
structure BroadcastPayload where
  type : String
  id : Nat
  event_type : String
  user_id : String
  action : String
  timestamp : Nat
deriving Repr, DecidableEq

/-- websocket.send_text: succeeds or raises according to the handle. -/
def ConnectionManager.sendText (c : Conn) (_message : BroadcastPayload) :
    Except Unit Unit :=
  if c.send_ok then .ok () else .error ()

/-- The for-loop of ConnectionManager.broadcast: try send_text on each
member in order; the bare except swallows any failure (except: pass) and
the loop moves on.  Returns the cids of the members whose send
succeeded. -/
def ConnectionManager.broadcastLoop (conns : List Conn)
    (message : BroadcastPayload) : List Nat :=
  match conns with
  | [] => []
  | c :: rest =>
    match ConnectionManager.sendText c message with
    | .ok _ => c.cid :: ConnectionManager.broadcastLoop rest message
    | .error _ => ConnectionManager.broadcastLoop rest message

/-- ConnectionManager.broadcast: iterates over active_connections
sending the message; failures are swallowed and active_connections is
never mutated.  Returns the (unchanged) active set paired with the cids
that received the message. -/
def ConnectionManager.broadcast (active : List Conn)
    (message : BroadcastPayload) : List Conn × List Nat :=
  (active, ConnectionManager.broadcastLoop active message)

/-- Python list.remove: removes the first occurrence of the element,
raises ValueError when the element is absent. -/
def ConnectionManager.listRemove (l : List Conn) (x : Conn) :
    Except String (List Conn) :=
  match l with
  | [] => .error "ValueError"
  | y :: rest =>
    if y = x then .ok rest
    else
      match ConnectionManager.listRemove rest x with
      | .ok rest2 => .ok (y :: rest2)
      | .error e => .error e

/-- ConnectionManager.disconnect: self.active_connections.remove(websocket). -/
def ConnectionManager.disconnect (active : List Conn) (ws : Conn) :
    Except String (List Conn) :=
  ConnectionManager.listRemove active ws

/-- ConnectionManager.connect: accept the socket, then append it to
active_connections. -/
def ConnectionManager.connect (active : List Conn) (ws : Conn) : List Conn :=
  active ++ [ws]

/-- Message sent to the Kafka audit-events topic by create_event
(content of kafka_data). -/
structure KafkaMessage where
  id : Nat
  event_type : String
  user_id : String
  action : String
  timestamp : Nat
  ipfs_hash : Option String
  metadata : String
deriving Repr, DecidableEq

/-- Document indexed into the Elasticsearch audit_records index by
create_event. -/
structure EsDoc where
  id : Nat
  event_type : String
  user_id : String
  action : String
  timestamp : Nat
  ipfs_hash : Option String
deriving Repr, DecidableEq

/-- Behaviour of the external adapters as observed by one create_event
call.  Each Option handle models the process-wide client that may be
None after a failed initialization; each function models one adapter
call, returning ok or the exception it raises.  db_append models
db.add + db.commit + db.refresh: given the event fields and the
ipfs_hash to store, the store either assigns (id, timestamp) or
raises. -/
structure PipelineEnv where
  ipfs_client : Option (EventModel → Except String String)
  db_append : EventModel → Option String → Except String (Nat × Nat)
  kafka_producer : Option (KafkaMessage → Except String Unit)
  es_index : Option (Nat → EsDoc → Except String Unit)

/-- Body of a successful POST /events response. -/
structure SubmitResponse where
  success : Bool
  id : Nat
  ipfs_hash : Option String
  message : String
deriving Repr, DecidableEq

/-- What reached each sink during one create_event call. -/
structure SubmitEffects where
  stored : Option AuditRecord
  kafka_sent : List KafkaMessage
  es_indexed : List EsDoc
  broadcast_delivered : List Nat
deriving Repr, DecidableEq

/-- The IPFS block of create_event: ipfs_hash starts as None; with a
client present, add_json is attempted and any exception is logged and
swallowed, leaving ipfs_hash None. -/
def ipfsStep (env : PipelineEnv) (event : EventModel) : Option String :=
  match env.ipfs_client with
  | none => none
  | some add_json =>
    match add_json event with
    | .ok h => some h
    | .error _ => none

/-- The AuditRecord constructed by create_event: event fields plus the
archive result; every other column takes its declared default. -/
def mkRecord (event : EventModel) (ipfs_hash : Option String)
    (rid ts : Nat) : AuditRecord :=
  { id := rid
    event_type := event.event_type
    user_id := event.user_id
    action := event.action
    timestamp := ts
    transaction_hash := none
    block_number := none
    ipfs_hash := ipfs_hash
    verified := false
    gas_used := none
    metadata := event.metadata }

/-- The kafka_data payload built by create_event. -/
def mkKafkaMessage (event : EventModel) (ipfs_hash : Option String)
    (rid ts : Nat) : KafkaMessage :=
  { id := rid
    event_type := event.event_type
    user_id := event.user_id
    action := event.action
    timestamp := ts
    ipfs_hash := ipfs_hash
    metadata := event.metadata }

/-- The Elasticsearch document body built by create_event. -/
def mkEsDoc (event : EventModel) (ipfs_hash : Option String)
    (rid ts : Nat) : EsDoc :=
  { id := rid
    event_type := event.event_type
    user_id := event.user_id
    action := event.action
    timestamp := ts
    ipfs_hash := ipfs_hash }

/-- The new_event payload broadcast by create_event. -/
def mkBroadcastPayload (event : EventModel) (rid ts : Nat) : BroadcastPayload :=
  { type := "new_event"
    id := rid
    event_type := event.event_type
    user_id := event.user_id
    action := event.action
    timestamp := ts }

/-- POST /events (create_event): attempt the IPFS archive with failures
swallowed; persist the AuditRecord, and if persistence raises, the outer
except aborts with an HTTP 500 carrying the detail, with no fan-out
attempted; after a successful commit, attempt the Kafka publish, the
Elasticsearch index write and the WebSocket broadcast, each failure
logged and swallowed, then return the success body.  The result pairs
the caller-visible outcome with what reached each sink. -/
def create_event (env : PipelineEnv) (active : List Conn)
    (event : EventModel) : Except String SubmitResponse × SubmitEffects :=
  let ipfs_hash := ipfsStep env event
  match env.db_append event ipfs_hash with
  | .error e =>
    (.error e,
     { stored := none, kafka_sent := [], es_indexed := [],
       broadcast_delivered := [] })
  | .ok (rid, ts) =>
    let kafka_sent : List KafkaMessage :=
      match env.kafka_producer with
      | none => []
      | some send =>
        match send (mkKafkaMessage event ipfs_hash rid ts) with
        | .ok _ => [mkKafkaMessage event ipfs_hash rid ts]
        | .error _ => []
    let es_indexed : List EsDoc :=
      match env.es_index with
      | none => []
      | some indexDoc =>
        match indexDoc rid (mkEsDoc event ipfs_hash rid ts) with
        | .ok _ => [mkEsDoc event ipfs_hash rid ts]
        | .error _ => []
    let delivered :=
      (ConnectionManager.broadcast active (mkBroadcastPayload event rid ts)).2
    (.ok { success := true, id := rid, ipfs_hash := ipfs_hash,
           message := "Event recorded successfully" },
     { stored := some (mkRecord event ipfs_hash rid ts)
       kafka_sent := kafka_sent
       es_indexed := es_indexed
       broadcast_delivered := delivered })

/-- ORDER BY timestamp DESC: later timestamps first. -/
def tsDesc (a b : AuditRecord) : Prop := b.timestamp ≤ a.timestamp

instance : DecidableRel tsDesc :=
  fun a b => inferInstanceAs (Decidable (b.timestamp ≤ a.timestamp))

instance : IsTotal AuditRecord tsDesc :=
  ⟨fun a b => Nat.le_total b.timestamp a.timestamp⟩

instance : IsTrans AuditRecord tsDesc :=
  ⟨fun _ _ _ hab hbc => Nat.le_trans hbc hab⟩

/-- GET /audit/records (get_audit_records): apply the event_type filter
when the parameter is truthy (present and non-empty, following the
source's `if event_type:`), likewise the user_id filter, then order by
timestamp descending and return at most limit rows. -/
def get_audit_records (store : List AuditRecord) (limit : Nat)
    (event_type user_id : Option String) : List AuditRecord :=
  let q1 :=
    match event_type with
    | none => store
    | some et =>
      if et.isEmpty then store
      else store.filter (fun r => r.event_type == et)
  let q2 :=
    match user_id with
    | none => q1
    | some uid =>
      if uid.isEmpty then q1
      else q1.filter (fun r => r.user_id == uid)
  (List.insertionSort tsDesc q2).take limit

/-- One hit source returned by the index search. -/
structure EsSource where
  id : Nat
  event_type : String
  user_id : String
  action : String
  timestamp : Nat
  transaction_hash : Option String
  block_number : Option Nat
  ipfs_hash : Option String
  verified : Bool
deriving Repr, DecidableEq

/-- An Elasticsearch search response: the hit sources plus the reported
total. -/
structure EsResponse where
  hits : List EsSource
  total : Nat
deriving Repr, DecidableEq

/-- The index search capability: a multi_match query over event_type,
user_id and action, with an optional size, returning a response or
raising. -/
structure EsClient where
  search : String → Option Nat → Except String EsResponse

/-- Body of a successful GET /audit/search response. -/
structure SearchResult where
  results : List EsSource
  total : Nat
deriving Repr, DecidableEq

/-- GET /audit/search (search_audit_records): raises HTTP 503 when the
es handle is None, HTTP 500 when the query raises, and otherwise
returns the hit sources with the reported total.  Errors are
(status code, detail) pairs. -/
def search_audit_records (es : Option EsClient) (q : String) (limit : Nat) :
    Except (Nat × String) SearchResult :=
  match es with
  | none => .error (503, "Elasticsearch not available")
  | some client =>
    match client.search q (some limit) with
    | .error e => .error (500, e)
    | .ok resp => .ok { results := resp.hits, total := resp.total }

/-- GraphQL AuditRecordType. -/
structure AuditRecordType where
  id : Nat
  event_type : String
  user_id : String
  action : String
  timestamp : Nat
  transaction_hash : Option String
  block_number : Option Nat
  ipfs_hash : Option String
  verified : Bool
deriving Repr, DecidableEq

/-- AuditRecordType(**source) for a hit source. -/
def toAuditRecordType (s : EsSource) : AuditRecordType :=
  { id := s.id
    event_type := s.event_type
    user_id := s.user_id
    action := s.action
    timestamp := s.timestamp
    transaction_hash := s.transaction_hash
    block_number := s.block_number
    ipfs_hash := s.ipfs_hash
    verified := s.verified }

/-- GraphQL Query.search_records: returns [] when the es handle is None;
the query and result conversion run inside a try whose except logs and
returns []; otherwise the hit sources as AuditRecordType values.  It
never surfaces an error. -/
def Query.search_records (es : Option EsClient) (query : String) :
    List AuditRecordType :=
  match es with
  | none => []
  | some client =>
    match client.search query none with
    | .error _ => []
    | .ok resp => resp.hits.map toAuditRecordType

/-- Process and environment state observed by one /health call: whether
each client handle was initialized (is not None), what w3.isConnected()
reports, and — as an environment fact the handler never consults —
whether the database is actually reachable. -/
structure ServiceState where
  database_reachable : Bool
  kafka_producer_init : Bool
  es_init : Bool
  w3_init : Bool
  w3_isConnected : Bool
  ipfs_init : Bool
deriving Repr, DecidableEq

/-- The services mapping of the /health response. -/
structure HealthServices where
  database : Bool
  kafka : Bool
  elasticsearch : Bool
  ethereum : Bool
  ipfs : Bool
deriving Repr, DecidableEq

/-- GET /health (health_check): database is the literal True; kafka,
elasticsearch and ipfs report whether the handle is not None; ethereum
reports `w3 is not None and w3.isConnected() if w3 else False`; the
status is "healthy" when all values are true, "degraded" otherwise. -/
def health_check (s : ServiceState) : String × HealthServices :=
  let services : HealthServices :=
    { database := true
      kafka := s.kafka_producer_init
      elasticsearch := s.es_init
      ethereum := if s.w3_init then s.w3_init && s.w3_isConnected else false
      ipfs := s.ipfs_init }
  ( if services.database && services.kafka && services.elasticsearch
       && services.ethereum && services.ipfs
    then "healthy" else "degraded",
    services )

/-- The broadcast loop delivers to exactly the members whose send
succeeds, in order. -/
theorem broadcastLoop_eq_filter (conns : List Conn) (message : BroadcastPayload) :
    ConnectionManager.broadcastLoop conns message =
      (conns.filter (fun c => c.send_ok)).map Conn.cid := by
  induction conns with
  | nil => rfl
  | cons c rest ih =>
    by_cases h : c.send_ok
    · simp [ConnectionManager.broadcastLoop, ConnectionManager.sendText, h, ih,
        List.filter_cons]
    · simp [ConnectionManager.broadcastLoop, ConnectionManager.sendText, h, ih,
        List.filter_cons]

/-- A concrete broadcast payload for counterexamples. -/
def payloadW : BroadcastPayload :=
  { type := "new_event", id := 1, event_type := "login", user_id := "u1",
    action := "signed in", timestamp := 100 }

/-- C3 counterexample: with an active set holding a failing subscriber
(cid 1) and a healthy one (cid 2), broadcast leaves the active set
unchanged — the failing member is still a member after the call, so it
is not dropped from the active set as part of that broadcast, and a
subsequent broadcast still attempts it. -/
theorem broadcast_keeps_failed_member :
    (ConnectionManager.broadcast [⟨1, false⟩, ⟨2, true⟩] payloadW).1 =
      [⟨1, false⟩, ⟨2, true⟩] ∧
    (⟨1, false⟩ : Conn) ∈
      (ConnectionManager.broadcast [⟨1, false⟩, ⟨2, true⟩] payloadW).1 := by
  decide

/-- C3 amended: a failing send is swallowed — broadcast never raises and
delivers to exactly the members whose send succeeds, in registration
order — but the failing member is NOT removed from the active set by the
call: the active set is returned unchanged, so later broadcasts attempt
the failed member again (removal happens only through an explicit
disconnect). -/
theorem broadcast_swallows_failures (active : List Conn)
    (message : BroadcastPayload) :
    (ConnectionManager.broadcast active message).1 = active ∧
    (ConnectionManager.broadcast active message).2 =
      (active.filter (fun c => c.send_ok)).map Conn.cid :=
  ⟨rfl, broadcastLoop_eq_filter active message⟩

/-- C5 counterexample: disconnect on a handle absent from the active set
is not a no-op: list.remove raises ValueError. -/
theorem disconnect_absent_raises :
    ConnectionManager.disconnect [⟨2, true⟩] ⟨1, true⟩ = .error "ValueError" := by
  rfl

/-- C5 amended: disconnect removes the first occurrence of the handle
when it is present in the active set, and raises ValueError when it is
absent — it is not idempotent. -/
theorem disconnect_removes_or_raises (s : List Conn) (c : Conn) :
    ConnectionManager.disconnect s c =
      if c ∈ s then .ok (s.erase c) else .error "ValueError" := by
  induction s with
  | nil => simp [ConnectionManager.disconnect, ConnectionManager.listRemove]
  | cons y rest ih =>
    unfold ConnectionManager.disconnect at ih ⊢
    by_cases h : y = c
    · subst h
      simp [ConnectionManager.listRemove, List.erase_cons_head]
    · have hb : ¬((y == c) = true) := by simpa using h
      rw [List.erase_cons_tail hb]
      by_cases hc : c ∈ rest
      · simp [ConnectionManager.listRemove, h, ih, hc, List.mem_cons,
          Ne.symm h]
      · have hcy : ¬ c = y := fun he => h he.symm
        simp [ConnectionManager.listRemove, h, ih, hc, hcy]

/-- A concrete event for witnesses. -/
def eventW : EventModel :=
  { event_type := "login", user_id := "u1", action := "signed in",
    metadata := "" }

/-- Adapter behaviour with a failing record store. -/
def envDbFail : PipelineEnv :=
  { ipfs_client := none
    db_append := fun _ _ => .error "db down"
    kafka_producer := none
    es_index := none }

/-- Adapter behaviour with a failing archive and a healthy store. -/
def envArchiveFail : PipelineEnv :=
  { ipfs_client := some fun _ => .error "ipfs down"
    db_append := fun _ _ => .ok (1, 100)
    kafka_producer := none
    es_index := none }

/-- Adapter behaviour with a failing stream publisher and healthy
store, index and archive-less path. -/
def envStreamFail : PipelineEnv :=
  { ipfs_client := none
    db_append := fun _ _ => .ok (1, 100)
    kafka_producer := some fun _ => .error "kafka down"
    es_index := some fun _ _ => .ok () }

/-- Fully healthy adapter behaviour. -/
def envOk : PipelineEnv :=
  { ipfs_client := some fun _ => .ok "QmCid"
    db_append := fun _ _ => .ok (1, 100)
    kafka_producer := some fun _ => .ok ()
    es_index := some fun _ _ => .ok () }

/-- C1: if the persistence append fails, create_event surfaces the error
to the caller, and no record is stored, no stream message is published,
no index document is written and no broadcast is delivered for that
event. -/
theorem persist_failure_aborts (env : PipelineEnv) (active : List Conn)
    (event : EventModel) (e : String)
    (h : env.db_append event (ipfsStep env event) = .error e) :
    (create_event env active event).1 = .error e ∧
    (create_event env active event).2 =
      { stored := none, kafka_sent := [], es_indexed := [],
        broadcast_delivered := [] } := by
  simp [create_event, h]

/-- C1 witness: with the record store failing, the submission aborts
with the error and nothing reaches any sink. -/
theorem persist_failure_aborts_witness :
    (create_event envDbFail [] eventW).1 = .error "db down" ∧
    (create_event envDbFail [] eventW).2 =
      { stored := none, kafka_sent := [], es_indexed := [],
        broadcast_delivered := [] } :=
  persist_failure_aborts envDbFail [] eventW "db down" rfl

/-- C2: a failing archive step never aborts the submission: with the
IPFS client raising on add_json and the record store accepting, the
event is persisted, the call succeeds, and both the response and the
stored record carry an absent archive reference. -/
theorem archive_failure_tolerated (env : PipelineEnv) (active : List Conn)
    (event : EventModel) (f : EventModel → Except String String)
    (err : String) (rid ts : Nat)
    (hclient : env.ipfs_client = some f)
    (hfail : f event = .error err)
    (hdb : env.db_append event none = .ok (rid, ts)) :
    (create_event env active event).1 =
      .ok { success := true, id := rid, ipfs_hash := none,
            message := "Event recorded successfully" } ∧
    (create_event env active event).2.stored.map (fun r => r.ipfs_hash) =
      some none := by
  have hipfs : ipfsStep env event = none := by
    simp [ipfsStep, hclient, hfail]
  refine ⟨?_, ?_⟩ <;>
    simp [create_event, hipfs, hdb, mkRecord]

/-- C2 witness: the archive adapter forced to fail still yields a
successful submission whose response and record have no archive
reference. -/
theorem archive_failure_tolerated_witness :
    (create_event envArchiveFail [] eventW).1 =
      .ok { success := true, id := 1, ipfs_hash := none,
            message := "Event recorded successfully" } ∧
    (create_event envArchiveFail [] eventW).2.stored.map
      (fun r => r.ipfs_hash) = some none :=
  archive_failure_tolerated envArchiveFail [] eventW
    (fun _ => .error "ipfs down") "ipfs down" 1 100 rfl rfl rfl

/-- C4: once persistence succeeds, a failing stream publish does not
prevent the index write or the broadcast and does not change the
successful result: with the Kafka send raising, the index accepting the
document and every registered subscriber healthy, the submission
succeeds, the index receives the document, and every subscriber
receives the broadcast. -/
theorem fanout_isolation (env : PipelineEnv) (active : List Conn)
    (event : EventModel) (rid ts : Nat)
    (send : KafkaMessage → Except String Unit)
    (indexDoc : Nat → EsDoc → Except String Unit) (err : String)
    (hdb : env.db_append event (ipfsStep env event) = .ok (rid, ts))
    (hk : env.kafka_producer = some send)
    (hkfail : send (mkKafkaMessage event (ipfsStep env event) rid ts) =
      .error err)
    (hes : env.es_index = some indexDoc)
    (hesok : indexDoc rid (mkEsDoc event (ipfsStep env event) rid ts) =
      .ok ())
    (hall : ∀ c ∈ active, c.send_ok = true) :
    (create_event env active event).1 =
      .ok { success := true, id := rid, ipfs_hash := ipfsStep env event,
            message := "Event recorded successfully" } ∧
    (create_event env active event).2.kafka_sent = [] ∧
    (create_event env active event).2.es_indexed =
      [mkEsDoc event (ipfsStep env event) rid ts] ∧
    (create_event env active event).2.broadcast_delivered =
      active.map Conn.cid := by
  have hfilter : active.filter (fun c => c.send_ok) = active :=
    List.filter_eq_self.mpr hall
  refine ⟨?_, ?_, ?_, ?_⟩ <;>
    simp [create_event, hdb, hk, hkfail, hes, hesok,
      ConnectionManager.broadcast, broadcastLoop_eq_filter, hfilter]

/-- C4 witness: with the stream adapter failing and the index and two
healthy subscribers in place, the submission succeeds, the document is
indexed, and both subscribers receive the broadcast. -/
theorem fanout_isolation_witness :
    (create_event envStreamFail [⟨1, true⟩, ⟨2, true⟩] eventW).1 =
      .ok { success := true, id := 1, ipfs_hash := none,
            message := "Event recorded successfully" } ∧
    (create_event envStreamFail [⟨1, true⟩, ⟨2, true⟩] eventW).2.kafka_sent
      = [] ∧
    (create_event envStreamFail [⟨1, true⟩, ⟨2, true⟩] eventW).2.es_indexed
      = [mkEsDoc eventW none 1 100] ∧
    (create_event envStreamFail
      [⟨1, true⟩, ⟨2, true⟩] eventW).2.broadcast_delivered = [1, 2] :=
  fanout_isolation envStreamFail [⟨1, true⟩, ⟨2, true⟩] eventW 1 100
    (fun _ => .error "kafka down") (fun _ _ => .ok ()) "kafka down"
    rfl rfl rfl rfl rfl (by decide)

/-- Characterisation of the record the write path stores: none on a
persistence failure, and otherwise exactly the constructed record with
the column defaults. -/
theorem create_event_stored (env : PipelineEnv) (active : List Conn)
    (event : EventModel) :
    (create_event env active event).2.stored =
      (match env.db_append event (ipfsStep env event) with
       | .error _ => none
       | .ok (rid, ts) => some (mkRecord event (ipfsStep env event) rid ts)) := by
  cases hdb : env.db_append event (ipfsStep env event) with
  | error e => simp [create_event, hdb]
  | ok p => obtain ⟨rid, ts⟩ := p; simp [create_event, hdb]

/-- C8: every record created through the write path carries the column
defaults for the reserved verification fields: transaction_hash,
block_number and gas_used are absent and verified is false — the write
path never assigns them. -/
theorem reserved_fields_absent (env : PipelineEnv) (active : List Conn)
    (event : EventModel) (r : AuditRecord)
    (h : (create_event env active event).2.stored = some r) :
    r.transaction_hash = none ∧ r.block_number = none ∧
    r.gas_used = none ∧ r.verified = false := by
  rw [create_event_stored] at h
  cases hdb : env.db_append event (ipfsStep env event) with
  | error e => rw [hdb] at h; simp at h
  | ok p =>
    obtain ⟨rid, ts⟩ := p
    rw [hdb] at h
    simp only [Option.some.injEq] at h
    subst h
    simp [mkRecord]

/-- C8 witness: with every adapter healthy, the stored record has no
transaction hash, block number or gas used, and is unverified. -/
theorem reserved_fields_absent_witness :
    (mkRecord eventW (some "QmCid") 1 100).transaction_hash = none ∧
    (mkRecord eventW (some "QmCid") 1 100).block_number = none ∧
    (mkRecord eventW (some "QmCid") 1 100).gas_used = none ∧
    (mkRecord eventW (some "QmCid") 1 100).verified = false :=
  reserved_fields_absent envOk [] eventW (mkRecord eventW (some "QmCid") 1 100)
    rfl

/-- A concrete stored record for counterexamples and witnesses. -/
def recW : AuditRecord :=
  { id := 1, event_type := "login", user_id := "u1", action := "signed in",
    timestamp := 100, transaction_hash := none, block_number := none,
    ipfs_hash := none, verified := false, gas_used := none, metadata := "" }

/-- C7 counterexample: with both filters supplied but event_type the
empty string, the endpoint follows Python truthiness and skips the
event_type filter, returning a record whose event_type does not match
the supplied filter value. -/
theorem list_records_empty_filter_skipped :
    get_audit_records [recW] 50 (some "") (some "u1") = [recW] ∧
    recW.event_type ≠ "" := by
  constructor
  · rfl
  · decide

/-- The event_type filter the endpoint applies: constantly true
(skipped) when the parameter is absent or the empty string, an equality
test on event_type otherwise. -/
def etFilter (event_type : Option String) : AuditRecord → Bool :=
  match event_type with
  | none => fun _ => true
  | some et =>
    if et.isEmpty then fun _ => true else fun r => r.event_type == et

/-- The user_id filter the endpoint applies, likewise. -/
def uidFilter (user_id : Option String) : AuditRecord → Bool :=
  match user_id with
  | none => fun _ => true
  | some uid =>
    if uid.isEmpty then fun _ => true else fun r => r.user_id == uid

/-- C7 amended: for every stored set of records, every limit and every
optional filter configuration, the listing equals the records passing
the applied filters, ordered by timestamp descending and cut to limit
rows; hence it holds at most limit records, is ordered by timestamp
descending, contains only records passing both applied filters — in
particular only records matching both values when both filters are
supplied as non-empty strings (conjunctive AND) — and is an empty
sequence, not an error, when no stored record passes them; a filter
supplied as the empty string is treated exactly as an absent one. -/
theorem list_records_spec (store : List AuditRecord) (limit : Nat)
    (event_type user_id : Option String) :
    get_audit_records store limit event_type user_id =
      (List.insertionSort tsDesc
        ((store.filter (etFilter event_type)).filter
          (uidFilter user_id))).take limit ∧
    (get_audit_records store limit event_type user_id).length ≤ limit ∧
    List.Sorted tsDesc (get_audit_records store limit event_type user_id) ∧
    (∀ r ∈ get_audit_records store limit event_type user_id,
       etFilter event_type r = true ∧ uidFilter user_id r = true) ∧
    (∀ et uid : String, event_type = some et → user_id = some uid →
       et.isEmpty = false → uid.isEmpty = false →
       ∀ r ∈ get_audit_records store limit event_type user_id,
         r.event_type = et ∧ r.user_id = uid) ∧
    ((∀ r ∈ store,
        ¬(etFilter event_type r = true ∧ uidFilter user_id r = true)) →
       get_audit_records store limit event_type user_id = []) ∧
    get_audit_records store limit (some "") user_id =
      get_audit_records store limit none user_id ∧
    get_audit_records store limit event_type (some "") =
      get_audit_records store limit event_type none := by
  have hdef : get_audit_records store limit event_type user_id =
      (List.insertionSort tsDesc
        ((store.filter (etFilter event_type)).filter
          (uidFilter user_id))).take limit := by
    rcases event_type with _ | et <;> rcases user_id with _ | uid
    · simp [get_audit_records, etFilter, uidFilter]
    · by_cases hu : uid.isEmpty <;>
        simp [get_audit_records, etFilter, uidFilter, hu]
    · by_cases he : et.isEmpty <;>
        simp [get_audit_records, etFilter, uidFilter, he]
    · by_cases he : et.isEmpty <;> by_cases hu : uid.isEmpty <;>
        simp [get_audit_records, etFilter, uidFilter, he, hu]
  have hsound : ∀ r ∈ get_audit_records store limit event_type user_id,
      etFilter event_type r = true ∧ uidFilter user_id r = true := by
    intro r hr
    rw [hdef] at hr
    have hr2 := (List.take_sublist _ _).mem hr
    have hr3 := (List.perm_insertionSort tsDesc _).mem_iff.mp hr2
    have h1 := List.mem_filter.mp hr3
    have h2 := List.mem_filter.mp h1.1
    exact ⟨h2.2, h1.2⟩
  refine ⟨hdef, ?_, ?_, hsound, ?_, ?_, ?_, ?_⟩
  · rw [hdef, List.length_take]
    exact min_le_left _ _
  · rw [hdef]
    exact List.Pairwise.sublist (List.take_sublist _ _)
      (List.sorted_insertionSort tsDesc _)
  · intro et uid he hu hene hune r hr
    obtain ⟨h1, h2⟩ := hsound r hr
    subst he; subst hu
    simp [etFilter, hene] at h1
    simp [uidFilter, hune] at h2
    exact ⟨h1, h2⟩
  · intro hnone
    rw [hdef]
    have hnil : (store.filter (etFilter event_type)).filter
        (uidFilter user_id) = [] := by
      rw [List.filter_eq_nil_iff]
      intro r hr
      have h1 := List.mem_filter.mp hr
      intro hu
      exact hnone r h1.1 ⟨h1.2, hu⟩
    rw [hnil]
    simp [List.insertionSort]
  · rfl
  · rfl

/-- An index client that is healthy and reports zero matches. -/
def esEmptyClient : EsClient :=
  { search := fun _ _ => .ok { hits := [], total := 0 } }

/-- C6 counterexample: the GraphQL search entry point returns the same
empty list whether the index handle is absent or the index is healthy
with zero matches — with the index unavailable it does not fail, and the
two outcomes are indistinguishable to the GraphQL caller. -/
theorem search_unavailable_not_distinguished :
    Query.search_records none "q" = [] ∧
    Query.search_records (some esEmptyClient) "q" = [] := by
  exact ⟨rfl, rfl⟩

/-- C6 amended: for the REST search endpoint (search_audit_records) the
claim holds — an absent index fails with a 503 error while a healthy
index with zero matches returns an empty success, outcomes the caller
can distinguish; the GraphQL search_records entry point, however,
returns an empty list in both cases. -/
theorem search_unavailable_distinguishable (q : String) (limit : Nat)
    (client : EsClient)
    (hz : client.search q (some limit) = .ok { hits := [], total := 0 }) :
    search_audit_records none q limit =
      .error (503, "Elasticsearch not available") ∧
    search_audit_records (some client) q limit =
      .ok { results := [], total := 0 } := by
  refine ⟨rfl, ?_⟩
  simp [search_audit_records, hz]

/-- C6 witness: a healthy zero-match client against the REST endpoint. -/
theorem search_unavailable_distinguishable_witness :
    search_audit_records none "q" 50 =
      .error (503, "Elasticsearch not available") ∧
    search_audit_records (some esEmptyClient) "q" 50 =
      .ok { results := [], total := 0 } :=
  search_unavailable_distinguishable "q" 50 esEmptyClient rfl

/-- C10: the GraphQL search entry point returns an empty list rather
than an error both when the index handle is absent and when the index
query raises, for every query string — index unavailability and zero
matches are not distinguishable there. -/
theorem graphql_search_swallows (query : String) (client : EsClient)
    (err : String)
    (h : client.search query none = .error err) :
    Query.search_records none query = [] ∧
    Query.search_records (some client) query = [] := by
  refine ⟨rfl, ?_⟩
  simp [Query.search_records, h]

/-- An index client whose search raises. -/
def esDownClient : EsClient :=
  { search := fun _ _ => .error "connection refused" }

/-- C10 witness: a raising client and an absent handle both yield []. -/
theorem graphql_search_swallows_witness :
    Query.search_records none "q2" = [] ∧
    Query.search_records (some esDownClient) "q2" = [] :=
  graphql_search_swallows "q2" esDownClient "connection refused" rfl

/-- A state whose database is unreachable while every client handle is
initialized and the chain node connected. -/
def stateDbDown : ServiceState :=
  { database_reachable := false, kafka_producer_init := true,
    es_init := true, w3_init := true, w3_isConnected := true,
    ipfs_init := true }

/-- C9 counterexample: with the database unreachable and every client
initialized and connected, the health response still reports the
database entry as true and the overall status as healthy — the database
entry is not the adapter's reachability. -/
theorem health_database_hardcoded :
    stateDbDown.database_reachable = false ∧
    (health_check stateDbDown).2.database = true ∧
    (health_check stateDbDown).1 = "healthy" := by
  refine ⟨rfl, rfl, rfl⟩

/-- C9 amended: the health response reports the database entry as the
constant true (no reachability check), kafka, elasticsearch and ipfs as
whether the client handle was initialized, ethereum as initialized and
currently connected, and the status is "healthy" exactly when all five
reported values are true, "degraded" otherwise. -/
theorem health_reports (s : ServiceState) :
    (health_check s).2.database = true ∧
    (health_check s).2.kafka = s.kafka_producer_init ∧
    (health_check s).2.elasticsearch = s.es_init ∧
    (health_check s).2.ethereum = (s.w3_init && s.w3_isConnected) ∧
    (health_check s).2.ipfs = s.ipfs_init ∧
    ((health_check s).1 = "healthy" ↔
      (s.kafka_producer_init && s.es_init && (s.w3_init && s.w3_isConnected)
        && s.ipfs_init) = true) := by
  obtain ⟨d, k, e, w, c, i⟩ := s
  cases d <;> cases k <;> cases e <;> cases w <;> cases c <;> cases i <;>
    refine ⟨rfl, rfl, rfl, rfl, rfl, by decide⟩
